import Mathlib

/-!
Verification of `ax/service/utils/storage.py`: the persistence-synchronization
layer between the in-memory experimentation model and the durable store.

The module is embedded shallowly as trace-producing functions: each public
operation takes the outcomes of its external collaborators as parameters
(the collaborators live outside this module) and returns its result together
with the ordered list of observable events it performs (connection
initialization, collaborator calls, encoder invocations, debug logs).
Collaborator behavior that the claims depend on but whose code is outside the
module is modelled from the specification, and is marked as such.
-/

namespace AxStorage

/-- Python exception class, as far as the `except` clauses of the module
distinguish raised exceptions. -/
inductive PyClass where
  | valueError
  | connectionError
  | otherError
deriving DecidableEq, Repr

/-- A raised Python exception: its class and its message. -/
structure PyErr where
  cls : PyClass
  msg : String
deriving DecidableEq, Repr

/-- `DBSettings`: the store configuration bundling the connection `creator`,
the connection `url`, and the encoder/decoder collaborators (opaque tokens;
only their identity is observable at this layer). -/
structure DBSettings where
  creator : Nat
  url : String
  encoder : Nat
  decoder : Nat
deriving DecidableEq, Repr

/-- The object the experiment decoder produces for a name: its `name` and the
two flags `load_experiment` inspects, `isInstance` for
`isinstance(experiment, Experiment)` and `is_simple_experiment` for the
unsupported simple-experiment variant. -/
structure Experiment where
  name : String
  isInstance : Bool
  is_simple_experiment : Bool
deriving DecidableEq, Repr

/-- A trial: its immutable `index` within the experiment and an opaque payload. -/
structure BaseTrial where
  index : Nat
  payload : Nat
deriving DecidableEq, Repr

/-- A generator run: one immutable proposal record, opaque to this layer. -/
structure GeneratorRun where
  payload : Nat
deriving DecidableEq, Repr

/-- A generation strategy: its `name` and its full in-memory, append-only
generator-run history. -/
structure GenerationStrategy where
  name : String
  runs : List GeneratorRun
deriving DecidableEq, Repr

/-- Structured payloads of the debug-log lines the module emits; `elapsed`
stands for the rounded wall-clock duration interpolated into the message. -/
inductive LogMsg where
  | loadedExperiment (name : String) (elapsed : Nat)
  | savedExperiment (name : String) (elapsed : Nat)
  | savedGenerationStrategy (name : String) (elapsed : Nat)
  | savedTrials (indices : List Nat) (elapsed : Nat)
  | updatedTrials (indices : List Nat) (elapsed : Nat)
  | updatedGenerationStrategy (name : String) (elapsed : Nat)
deriving DecidableEq, Repr

/-- Observable effects of one operation of the module, in program order. -/
inductive Event where
  | initEngineAndSessionFactory (creator : Nat) (url : String)
  | getExperimentIdCall (name : String) (decoder : Nat)
  | getGenerationStrategyIdCall (name : String) (decoder : Nat)
  | loadExperimentCall (name : String) (decoder : Nat)
  | loadGenerationStrategyCall (name : String) (decoder : Nat)
  | saveExperimentCall (name : String) (encoder : Nat)
  | saveGenerationStrategyCall (name : String) (encoder : Nat)
  | saveNewTrialsCall (expName : String) (trials : List BaseTrial) (encoder : Nat)
  | updateTrialsCall (expName : String) (trials : List BaseTrial) (encoder : Nat)
  | updateGenerationStrategyCall (name : String) (runs : List GeneratorRun) (encoder : Nat)
  | encodeGeneratorRun (run : GeneratorRun) (encoder : Nat)
  | logDebug (msg : LogMsg)
deriving DecidableEq, Repr

/-- Is the event a debug-log emission? -/
def Event.isLog : Event → Bool
  | .logDebug _ => true
  | _ => false

/-- Is the event an encoder invocation on a generator run? -/
def Event.isEncode : Event → Bool
  | .encodeGeneratorRun _ _ => true
  | _ => false

/-- Is the event a call to one of the two trial-store collaborators? -/
def Event.isTrialStoreCall : Event → Bool
  | .saveNewTrialsCall _ _ _ => true
  | .updateTrialsCall _ _ _ => true
  | _ => false

/-- Drop the debug-log events from a trace, keeping everything else in order. -/
def eraseLogs (tr : List Event) : List Event :=
  tr.filter fun e => !e.isLog

/-- `get_experiment_id`: initializes the connection, then delegates to the
identity resolver `_get_experiment_id` (whose outcome is `idRes`). -/
def get_experiment_id (idRes : Option Nat) (name : String) (db : DBSettings) :
    Option Nat × List Event :=
  (idRes,
    [Event.initEngineAndSessionFactory db.creator db.url,
     Event.getExperimentIdCall name db.decoder])

/-- `get_generation_strategy_id`: initializes the connection, then delegates to
the identity resolver `_get_generation_strategy_id` (whose outcome is `idRes`). -/
def get_generation_strategy_id (idRes : Option Nat) (experiment_name : String)
    (db : DBSettings) : Option Nat × List Event :=
  (idRes,
    [Event.initEngineAndSessionFactory db.creator db.url,
     Event.getGenerationStrategyIdCall experiment_name db.decoder])

/-- `load_experiment`: initializes the connection, calls `_load_experiment`
(whose outcome is `loadRes`), raises `ValueError` when the decoded object is
not an `Experiment` instance or is the simple-experiment variant, and
otherwise logs the elapsed time and returns the experiment. -/
def load_experiment (loadRes : Except PyErr Experiment) (name : String)
    (db : DBSettings) (elapsed : Nat) : Except PyErr Experiment × List Event :=
  let tr := [Event.initEngineAndSessionFactory db.creator db.url,
             Event.loadExperimentCall name db.decoder]
  match loadRes with
  | .error e => (.error e, tr)
  | .ok experiment =>
    if !experiment.isInstance || experiment.is_simple_experiment then
      (.error ⟨PyClass.valueError, "Service API only supports Experiment"⟩, tr)
    else
      (.ok experiment, tr ++ [Event.logDebug (.loadedExperiment name elapsed)])

/-- `save_experiment`: initializes the connection, calls `_save_experiment`
(whose outcome is `storeRes`), and logs the elapsed time on success. -/
def save_experiment (storeRes : Except PyErr Unit) (experiment : Experiment)
    (db : DBSettings) (elapsed : Nat) : Except PyErr Unit × List Event :=
  let tr := [Event.initEngineAndSessionFactory db.creator db.url,
             Event.saveExperimentCall experiment.name db.encoder]
  match storeRes with
  | .error e => (.error e, tr)
  | .ok _ => (.ok (), tr ++ [Event.logDebug (.savedExperiment experiment.name elapsed)])

/-- `load_experiment_and_generation_strategy`: loads the experiment through
`load_experiment`, then calls `_load_generation_strategy_by_experiment_name`
(whose outcome is `gsRes`) inside a `try` whose `except ValueError` clause
converts any raised `ValueError` into a `none` second component. -/
def load_experiment_and_generation_strategy (loadRes : Except PyErr Experiment)
    (gsRes : Except PyErr GenerationStrategy) (experiment_name : String)
    (db : DBSettings) (elapsed : Nat) :
    Except PyErr (Experiment × Option GenerationStrategy) × List Event :=
  match load_experiment loadRes experiment_name db elapsed with
  | (.error e, tr) => (.error e, tr)
  | (.ok experiment, tr) =>
    let tr2 := tr ++ [Event.loadGenerationStrategyCall experiment_name db.decoder]
    match gsRes with
    | .error e =>
      if e.cls = PyClass.valueError then (.ok (experiment, none), tr2)
      else (.error e, tr2)
    | .ok generation_strategy => (.ok (experiment, some generation_strategy), tr2)

/-- `save_generation_strategy`: calls `_save_generation_strategy` (whose
outcome is `storeRes`) and logs the elapsed time on success. Note: the source
of this operation performs no connection initialization. -/
def save_generation_strategy (storeRes : Except PyErr Unit)
    (generation_strategy : GenerationStrategy) (db : DBSettings) (elapsed : Nat) :
    Except PyErr Unit × List Event :=
  let tr := [Event.saveGenerationStrategyCall generation_strategy.name db.encoder]
  match storeRes with
  | .error e => (.error e, tr)
  | .ok _ =>
    (.ok (), tr ++ [Event.logDebug (.savedGenerationStrategy generation_strategy.name elapsed)])

/-- `save_new_trials`: initializes the connection, calls `_save_new_trials`
with the whole batch (whose outcome is `storeRes`), and logs the list of trial
indices and the elapsed time on success. -/
def save_new_trials (storeRes : Except PyErr Unit) (experiment : Experiment)
    (trials : List BaseTrial) (db : DBSettings) (elapsed : Nat) :
    Except PyErr Unit × List Event :=
  let tr := [Event.initEngineAndSessionFactory db.creator db.url,
             Event.saveNewTrialsCall experiment.name trials db.encoder]
  match storeRes with
  | .error e => (.error e, tr)
  | .ok _ =>
    (.ok (), tr ++ [Event.logDebug (.savedTrials (trials.map fun t => t.index) elapsed)])

/-- `save_new_trial`: delegates to `save_new_trials` with the one-element
collection `[trial]`. -/
def save_new_trial (storeRes : Except PyErr Unit) (experiment : Experiment)
    (trial : BaseTrial) (db : DBSettings) (elapsed : Nat) :
    Except PyErr Unit × List Event :=
  save_new_trials storeRes experiment [trial] db elapsed

/-- `save_updated_trials`: initializes the connection, calls `_update_trials`
with the whole batch (whose outcome is `storeRes`), and logs the list of trial
indices and the elapsed time on success. -/
def save_updated_trials (storeRes : Except PyErr Unit) (experiment : Experiment)
    (trials : List BaseTrial) (db : DBSettings) (elapsed : Nat) :
    Except PyErr Unit × List Event :=
  let tr := [Event.initEngineAndSessionFactory db.creator db.url,
             Event.updateTrialsCall experiment.name trials db.encoder]
  match storeRes with
  | .error e => (.error e, tr)
  | .ok _ =>
    (.ok (), tr ++ [Event.logDebug (.updatedTrials (trials.map fun t => t.index) elapsed)])

/-- `save_updated_trial`: delegates to `save_updated_trials` with the
one-element collection `[trial]`. -/
def save_updated_trial (storeRes : Except PyErr Unit) (experiment : Experiment)
    (trial : BaseTrial) (db : DBSettings) (elapsed : Nat) :
    Except PyErr Unit × List Event :=
  save_updated_trials storeRes experiment [trial] db elapsed

/-- Modelled from the spec: `_update_generation_strategy`
(`ax.storage.sqa_store.save`, not under `src/`). Per the incremental-update
contract, it persists exactly the given new generator runs — invoking the
encoder on each, in the given order — and advances the strategy's durable
checkpoint (the durable run count `k`) by their number. -/
def update_generation_strategy_sqa (k : Nat) (generator_runs : List GeneratorRun)
    (encoder : Nat) : Nat × List Event :=
  (k + generator_runs.length,
    generator_runs.map fun r => Event.encodeGeneratorRun r encoder)

/-- `update_generation_strategy`: initializes the connection, calls
`_update_generation_strategy` with exactly the given new generator runs, and
logs the elapsed time. `k` is the strategy's durable run count (checkpoint)
before the call; the first component of the result is the durable run count
after it. -/
def update_generation_strategy (generation_strategy : GenerationStrategy) (k : Nat)
    (generator_runs : List GeneratorRun) (db : DBSettings) (elapsed : Nat) :
    Nat × List Event :=
  let inner := update_generation_strategy_sqa k generator_runs db.encoder
  (inner.1,
    Event.initEngineAndSessionFactory db.creator db.url ::
    Event.updateGenerationStrategyCall generation_strategy.name generator_runs db.encoder ::
    (inner.2 ++
      [Event.logDebug (.updatedGenerationStrategy generation_strategy.name elapsed)]))

/-- Modelled from the spec: `_save_experiment` (`ax.storage.sqa_store.save`,
not under `src/`) encodes the experiment and upserts the result in the store
under the experiment's name, leaving all other names untouched. -/
def save_experiment_sqa {R : Type} (store : String → Option R)
    (experiment : Experiment) (encoder : Experiment → R) : String → Option R :=
  fun n => if n = experiment.name then some (encoder experiment) else store n

/-- Modelled from the spec: `_load_experiment` (`ax.storage.sqa_store.load`,
not under `src/`) looks up the durable row for the name and decodes it; a
name with no durable row fails. -/
def load_experiment_sqa {R : Type} (store : String → Option R) (name : String)
    (decoder : R → Experiment) : Except PyErr Experiment :=
  match store name with
  | none => .error ⟨PyClass.valueError, "Experiment not found."⟩
  | some row => .ok (decoder row)

/-- Modelled from the spec: `get_experiment_id` with the instrumentation
wrapper (wall-clock timing and debug logging) removed. -/
def get_experiment_idNoLog (idRes : Option Nat) (name : String) (db : DBSettings) :
    Option Nat × List Event :=
  (idRes,
    [Event.initEngineAndSessionFactory db.creator db.url,
     Event.getExperimentIdCall name db.decoder])

/-- Modelled from the spec: `get_generation_strategy_id` with the
instrumentation wrapper removed. -/
def get_generation_strategy_idNoLog (idRes : Option Nat) (experiment_name : String)
    (db : DBSettings) : Option Nat × List Event :=
  (idRes,
    [Event.initEngineAndSessionFactory db.creator db.url,
     Event.getGenerationStrategyIdCall experiment_name db.decoder])

/-- Modelled from the spec: `load_experiment` with the instrumentation wrapper
(wall-clock timing and debug logging) removed. -/
def load_experimentNoLog (loadRes : Except PyErr Experiment) (name : String)
    (db : DBSettings) : Except PyErr Experiment × List Event :=
  let tr := [Event.initEngineAndSessionFactory db.creator db.url,
             Event.loadExperimentCall name db.decoder]
  match loadRes with
  | .error e => (.error e, tr)
  | .ok experiment =>
    if !experiment.isInstance || experiment.is_simple_experiment then
      (.error ⟨PyClass.valueError, "Service API only supports Experiment"⟩, tr)
    else
      (.ok experiment, tr)

/-- Modelled from the spec: `save_experiment` with the instrumentation wrapper
removed. -/
def save_experimentNoLog (storeRes : Except PyErr Unit) (experiment : Experiment)
    (db : DBSettings) : Except PyErr Unit × List Event :=
  let tr := [Event.initEngineAndSessionFactory db.creator db.url,
             Event.saveExperimentCall experiment.name db.encoder]
  match storeRes with
  | .error e => (.error e, tr)
  | .ok _ => (.ok (), tr)

/-- Modelled from the spec: `load_experiment_and_generation_strategy` with the
instrumentation wrapper removed. -/
def load_experiment_and_generation_strategyNoLog (loadRes : Except PyErr Experiment)
    (gsRes : Except PyErr GenerationStrategy) (experiment_name : String)
    (db : DBSettings) :
    Except PyErr (Experiment × Option GenerationStrategy) × List Event :=
  match load_experimentNoLog loadRes experiment_name db with
  | (.error e, tr) => (.error e, tr)
  | (.ok experiment, tr) =>
    let tr2 := tr ++ [Event.loadGenerationStrategyCall experiment_name db.decoder]
    match gsRes with
    | .error e =>
      if e.cls = PyClass.valueError then (.ok (experiment, none), tr2)
      else (.error e, tr2)
    | .ok generation_strategy => (.ok (experiment, some generation_strategy), tr2)

/-- Modelled from the spec: `save_generation_strategy` with the
instrumentation wrapper removed. -/
def save_generation_strategyNoLog (storeRes : Except PyErr Unit)
    (generation_strategy : GenerationStrategy) (db : DBSettings) :
    Except PyErr Unit × List Event :=
  let tr := [Event.saveGenerationStrategyCall generation_strategy.name db.encoder]
  match storeRes with
  | .error e => (.error e, tr)
  | .ok _ => (.ok (), tr)

/-- Modelled from the spec: `save_new_trials` with the instrumentation wrapper
removed. -/
def save_new_trialsNoLog (storeRes : Except PyErr Unit) (experiment : Experiment)
    (trials : List BaseTrial) (db : DBSettings) : Except PyErr Unit × List Event :=
  let tr := [Event.initEngineAndSessionFactory db.creator db.url,
             Event.saveNewTrialsCall experiment.name trials db.encoder]
  match storeRes with
  | .error e => (.error e, tr)
  | .ok _ => (.ok (), tr)

/-- Modelled from the spec: `save_new_trial` with the instrumentation wrapper
removed. -/
def save_new_trialNoLog (storeRes : Except PyErr Unit) (experiment : Experiment)
    (trial : BaseTrial) (db : DBSettings) : Except PyErr Unit × List Event :=
  save_new_trialsNoLog storeRes experiment [trial] db

/-- Modelled from the spec: `save_updated_trials` with the instrumentation
wrapper removed. -/
def save_updated_trialsNoLog (storeRes : Except PyErr Unit) (experiment : Experiment)
    (trials : List BaseTrial) (db : DBSettings) : Except PyErr Unit × List Event :=
  let tr := [Event.initEngineAndSessionFactory db.creator db.url,
             Event.updateTrialsCall experiment.name trials db.encoder]
  match storeRes with
  | .error e => (.error e, tr)
  | .ok _ => (.ok (), tr)

/-- Modelled from the spec: `save_updated_trial` with the instrumentation
wrapper removed. -/
def save_updated_trialNoLog (storeRes : Except PyErr Unit) (experiment : Experiment)
    (trial : BaseTrial) (db : DBSettings) : Except PyErr Unit × List Event :=
  save_updated_trialsNoLog storeRes experiment [trial] db

/-- Modelled from the spec: `update_generation_strategy` with the
instrumentation wrapper removed. -/
def update_generation_strategyNoLog (generation_strategy : GenerationStrategy)
    (k : Nat) (generator_runs : List GeneratorRun) (db : DBSettings) :
    Nat × List Event :=
  let inner := update_generation_strategy_sqa k generator_runs db.encoder
  (inner.1,
    Event.initEngineAndSessionFactory db.creator db.url ::
    Event.updateGenerationStrategyCall generation_strategy.name generator_runs db.encoder ::
    inner.2)

/-- Modelled from the spec: the `NoStrategyAttached` failure of
`_load_generation_strategy_by_experiment_name` (`ax.storage.sqa_store.load`,
not under `src/`) — raised, as a `ValueError`, when no generation strategy is
attached to the named experiment. -/
def noStrategyAttachedErr : PyErr :=
  ⟨PyClass.valueError, "GenerationStrategy not found."⟩

/-- The trace of `load_experiment` always starts with the connection
initialization followed by the `_load_experiment` call. -/
theorem load_experiment_trace_shape (loadRes : Except PyErr Experiment)
    (name : String) (db : DBSettings) (elapsed : Nat) :
    ∃ rest, (load_experiment loadRes name db elapsed).2
      = Event.initEngineAndSessionFactory db.creator db.url ::
        Event.loadExperimentCall name db.decoder :: rest := by
  cases loadRes with
  | error e => exact ⟨[], rfl⟩
  | ok exp =>
    obtain ⟨nm, inst, simple⟩ := exp
    cases inst <;> cases simple <;> exact ⟨_, rfl⟩

/-- C4: when the decode step produces an object `o`, `load_experiment` raises
the unsupported-variant `ValueError` exactly when `o` is not an `Experiment`
instance or is the simple-experiment variant, and otherwise returns `o`
itself — never a partial object. -/
theorem C4_load_experiment_unsupported_variant
    (loadRes : Except PyErr Experiment) (name : String) (db : DBSettings)
    (elapsed : Nat) (o : Experiment) (h : loadRes = .ok o) :
    ((load_experiment loadRes name db elapsed).1
        = .error ⟨PyClass.valueError, "Service API only supports Experiment"⟩
      ↔ (o.isInstance = false ∨ o.is_simple_experiment = true)) ∧
    (o.isInstance = true → o.is_simple_experiment = false →
      (load_experiment loadRes name db elapsed).1 = .ok o) := by
  subst h
  obtain ⟨nm, inst, simple⟩ := o
  cases inst <;> cases simple <;> simp [load_experiment]

/-- C4 witness: at a concrete simple-experiment decode result, the load fails
with the unsupported-variant error. -/
theorem C4_witness :
    (load_experiment (.ok ⟨"exp1", true, true⟩) "exp1" ⟨1, "sqlite", 2, 3⟩ 0).1
      = .error ⟨PyClass.valueError, "Service API only supports Experiment"⟩ :=
  (C4_load_experiment_unsupported_variant (.ok ⟨"exp1", true, true⟩) "exp1"
    ⟨1, "sqlite", 2, 3⟩ 0 ⟨"exp1", true, true⟩ rfl).1.mpr (Or.inr rfl)

/-- C5: calling `update_generation_strategy` with an empty new-generator-runs
collection leaves the durable checkpoint unchanged and never invokes the
encoder. -/
theorem C5_empty_update_is_noop (generation_strategy : GenerationStrategy)
    (k : Nat) (db : DBSettings) (elapsed : Nat) :
    (update_generation_strategy generation_strategy k [] db elapsed).1 = k ∧
    ∀ r enc, Event.encodeGeneratorRun r enc ∉
      (update_generation_strategy generation_strategy k [] db elapsed).2 := by
  refine ⟨rfl, ?_⟩
  intro r enc h
  simp [update_generation_strategy, update_generation_strategy_sqa] at h

/-- C6: the single-trial operations are observationally identical to the batch
operations applied to the one-element collection, producing the very same
result and the very same event trace (hence identical encoder invocations). -/
theorem C6_single_trial_delegates_to_batch (storeRes : Except PyErr Unit)
    (experiment : Experiment) (trial : BaseTrial) (db : DBSettings) (elapsed : Nat) :
    save_new_trial storeRes experiment trial db elapsed
        = save_new_trials storeRes experiment [trial] db elapsed ∧
    save_updated_trial storeRes experiment trial db elapsed
        = save_updated_trials storeRes experiment [trial] db elapsed :=
  ⟨rfl, rfl⟩

/-- C9: called with an empty trials list, `save_new_trials` and
`save_updated_trials` raise no error at this layer, still invoke their trial
store collaborator exactly once with the empty list, and log an empty index
set. -/
theorem C9_empty_trials_not_rejected (experiment : Experiment) (db : DBSettings)
    (elapsed : Nat) :
    (save_new_trials (.ok ()) experiment [] db elapsed).1 = .ok () ∧
    ((save_new_trials (.ok ()) experiment [] db elapsed).2.filter
        Event.isTrialStoreCall)
      = [Event.saveNewTrialsCall experiment.name [] db.encoder] ∧
    Event.logDebug (.savedTrials [] elapsed)
      ∈ (save_new_trials (.ok ()) experiment [] db elapsed).2 ∧
    (save_updated_trials (.ok ()) experiment [] db elapsed).1 = .ok () ∧
    ((save_updated_trials (.ok ()) experiment [] db elapsed).2.filter
        Event.isTrialStoreCall)
      = [Event.updateTrialsCall experiment.name [] db.encoder] ∧
    Event.logDebug (.updatedTrials [] elapsed)
      ∈ (save_updated_trials (.ok ()) experiment [] db elapsed).2 := by
  refine ⟨rfl, ?_, ?_, rfl, ?_, ?_⟩ <;>
    simp [save_new_trials, save_updated_trials, Event.isTrialStoreCall,
      List.filter]

/-- C1: with the durable checkpoint at run index `k` and the `n` new runs
`[k..k+n)` of the strategy's history, `update_generation_strategy` passes
exactly those `n` runs, in order, to the update collaborator; the post-update
durable run count is `k + n`, the encoder is invoked exactly on those runs in
the given order, and no run with index `< k` is re-encoded. -/
theorem C1_update_passes_exact_new_suffix (generation_strategy : GenerationStrategy)
    (k n : Nat) (new_runs : List GeneratorRun) (db : DBSettings) (elapsed : Nat)
    (hruns : new_runs = (generation_strategy.runs.drop k).take n)
    (hlen : k + n ≤ generation_strategy.runs.length)
    (hnd : generation_strategy.runs.Nodup) :
    (update_generation_strategy generation_strategy k new_runs db elapsed).1 = k + n ∧
    Event.updateGenerationStrategyCall generation_strategy.name new_runs db.encoder
      ∈ (update_generation_strategy generation_strategy k new_runs db elapsed).2 ∧
    ((update_generation_strategy generation_strategy k new_runs db elapsed).2.filter
        Event.isEncode)
      = new_runs.map (fun r => Event.encodeGeneratorRun r db.encoder) ∧
    ∀ r ∈ generation_strategy.runs.take k,
      Event.encodeGeneratorRun r db.encoder
        ∉ (update_generation_strategy generation_strategy k new_runs db elapsed).2 := by
  refine ⟨?_, ?_, ?_, ?_⟩
  · subst hruns
    simp only [update_generation_strategy, update_generation_strategy_sqa,
      List.length_take, List.length_drop]
    omega
  · simp [update_generation_strategy]
  · simp only [update_generation_strategy, update_generation_strategy_sqa]
    simp [Event.isEncode, List.filter_map, Function.comp]
    congr 1
    rw [List.filter_eq_self]
    intro a _
    rfl
  · intro r hr hmem
    simp [update_generation_strategy, update_generation_strategy_sqa] at hmem
    have hdrop : r ∈ generation_strategy.runs.drop k :=
      List.mem_of_mem_take (hruns ▸ hmem)
    exact (List.disjoint_take_drop hnd (Nat.le_refl k)) hr hdrop

/-- C1 witness: a five-run strategy with checkpoint 3 updated with the two
runs `[3..5)` reaches durable count 5, encodes exactly those two runs, and
re-encodes none of the first three. -/
theorem C1_witness :
    (update_generation_strategy ⟨"gs", [⟨0⟩, ⟨1⟩, ⟨2⟩, ⟨3⟩, ⟨4⟩]⟩ 3
        ((([⟨0⟩, ⟨1⟩, ⟨2⟩, ⟨3⟩, ⟨4⟩] : List GeneratorRun).drop 3).take 2)
        ⟨1, "sqlite", 2, 3⟩ 7).1 = 5 ∧
    ∀ r ∈ ([⟨0⟩, ⟨1⟩, ⟨2⟩, ⟨3⟩, ⟨4⟩] : List GeneratorRun).take 3,
      Event.encodeGeneratorRun r 2
        ∉ (update_generation_strategy ⟨"gs", [⟨0⟩, ⟨1⟩, ⟨2⟩, ⟨3⟩, ⟨4⟩]⟩ 3
            ((([⟨0⟩, ⟨1⟩, ⟨2⟩, ⟨3⟩, ⟨4⟩] : List GeneratorRun).drop 3).take 2)
            ⟨1, "sqlite", 2, 3⟩ 7).2 := by
  have h := C1_update_passes_exact_new_suffix ⟨"gs", [⟨0⟩, ⟨1⟩, ⟨2⟩, ⟨3⟩, ⟨4⟩]⟩ 3 2
    ((([⟨0⟩, ⟨1⟩, ⟨2⟩, ⟨3⟩, ⟨4⟩] : List GeneratorRun).drop 3).take 2)
    ⟨1, "sqlite", 2, 3⟩ 7 rfl (by decide) (by decide)
  exact ⟨h.1, h.2.2.2⟩

/-- C3: when the experiment load succeeds and the strategy-load collaborator
fails only in its documented ways (`NoStrategyAttached` is its only
`ValueError`), `load_experiment_and_generation_strategy` returns
`(experiment, none)` exactly on `NoStrategyAttached`, and every other failure
of the strategy-load step propagates unchanged — no other failure is
swallowed. -/
theorem C3_no_strategy_attached_converted_to_none
    (loadRes : Except PyErr Experiment) (gsRes : Except PyErr GenerationStrategy)
    (experiment_name : String) (db : DBSettings) (elapsed : Nat)
    (experiment : Experiment)
    (hload : (load_experiment loadRes experiment_name db elapsed).1 = .ok experiment)
    (hcontract : ∀ e, gsRes = .error e →
      e = noStrategyAttachedErr ∨ e.cls ≠ PyClass.valueError) :
    ((load_experiment_and_generation_strategy loadRes gsRes experiment_name db
          elapsed).1 = .ok (experiment, none)
      ↔ gsRes = .error noStrategyAttachedErr) ∧
    (∀ e, gsRes = .error e → e ≠ noStrategyAttachedErr →
      (load_experiment_and_generation_strategy loadRes gsRes experiment_name db
          elapsed).1 = .error e) := by
  rcases hle : load_experiment loadRes experiment_name db elapsed with ⟨r, tr⟩
  rw [hle] at hload
  simp only at hload
  subst hload
  cases gsRes with
  | ok gs =>
    constructor
    · rw [load_experiment_and_generation_strategy, hle]
      simp
    · intro e he
      exact absurd he (by simp)
  | error e =>
    rcases hcontract e rfl with rfl | hne
    · constructor
      · rw [load_experiment_and_generation_strategy, hle]
        simp [noStrategyAttachedErr]
      · intro e' he' hne'
        obtain rfl : noStrategyAttachedErr = e' := by
          simpa using he'
        exact absurd rfl hne'
    · constructor
      · rw [load_experiment_and_generation_strategy, hle]
        have : ¬ e.cls = PyClass.valueError := hne
        simp only [this, if_false]
        constructor
        · intro h
          exact absurd h (by simp)
        · intro h
          have : e = noStrategyAttachedErr := by simpa using h
          exact absurd (this ▸ rfl : e.cls = PyClass.valueError) hne
      · intro e' he' _
        obtain rfl : e = e' := by simpa using he'
        rw [load_experiment_and_generation_strategy, hle]
        simp [hne]

/-- C3 witness: an existing experiment with no attached strategy loads as
`(experiment, none)`. -/
theorem C3_witness :
    (load_experiment_and_generation_strategy (.ok ⟨"exp1", true, false⟩)
        (.error noStrategyAttachedErr) "exp1" ⟨1, "sqlite", 2, 3⟩ 0).1
      = .ok (⟨"exp1", true, false⟩, none) :=
  (C3_no_strategy_attached_converted_to_none (.ok ⟨"exp1", true, false⟩)
      (.error noStrategyAttachedErr) "exp1" ⟨1, "sqlite", 2, 3⟩ 0
      ⟨"exp1", true, false⟩ rfl
      (by intro e he; exact Or.inl (by simpa using he.symm))).1.mpr rfl

/-- C10: a failure of the experiment-load step always propagates out of
`load_experiment_and_generation_strategy`, and an empty second component can
only come from a `ValueError` of the generation-strategy load step after a
successful experiment load. -/
theorem C10_experiment_load_failure_propagates
    (loadRes : Except PyErr Experiment) (gsRes : Except PyErr GenerationStrategy)
    (experiment_name : String) (db : DBSettings) (elapsed : Nat) :
    (∀ e, (load_experiment loadRes experiment_name db elapsed).1 = .error e →
      (load_experiment_and_generation_strategy loadRes gsRes experiment_name db
          elapsed).1 = .error e) ∧
    (∀ experiment,
      (load_experiment_and_generation_strategy loadRes gsRes experiment_name db
          elapsed).1 = .ok (experiment, none) →
      (load_experiment loadRes experiment_name db elapsed).1 = .ok experiment ∧
      ∃ e, gsRes = .error e ∧ e.cls = PyClass.valueError) := by
  rcases hle : load_experiment loadRes experiment_name db elapsed with ⟨r, tr⟩
  cases r with
  | error e0 =>
    constructor
    · intro e he
      obtain rfl : e0 = e := by simpa using he
      rw [load_experiment_and_generation_strategy, hle]
    · intro experiment hok
      rw [load_experiment_and_generation_strategy, hle] at hok
      exact absurd hok (by simp)
  | ok exp0 =>
    constructor
    · intro e he
      exact absurd he (by simp)
    · intro experiment hok
      rw [load_experiment_and_generation_strategy, hle] at hok
      cases gsRes with
      | ok gs => exact absurd hok (by simp)
      | error e =>
        by_cases hc : e.cls = PyClass.valueError
        · simp only [hc, if_true] at hok
          obtain ⟨rfl, -⟩ : exp0 = experiment ∧ True := by simpa using hok
          exact ⟨rfl, e, rfl, hc⟩
        · simp only [hc, if_false] at hok
          exact absurd hok (by simp)

/-- C10 witness: a connection-class failure of the experiment load propagates
unchanged through `load_experiment_and_generation_strategy`. -/
theorem C10_witness :
    (load_experiment_and_generation_strategy
        (.error ⟨PyClass.connectionError, "db down"⟩) (.ok ⟨"gs", []⟩) "exp1"
        ⟨1, "sqlite", 2, 3⟩ 0).1
      = .error ⟨PyClass.connectionError, "db down"⟩ :=
  (C10_experiment_load_failure_propagates
      (.error ⟨PyClass.connectionError, "db down"⟩) (.ok ⟨"gs", []⟩) "exp1"
      ⟨1, "sqlite", 2, 3⟩ 0).1 ⟨PyClass.connectionError, "db down"⟩ rfl

/-- C8: a supported-variant experiment saved through the experiment store
(`_save_experiment` upsert) and then loaded by its name through
`load_experiment` over `_load_experiment` round-trips: the load succeeds with
the very experiment, which is the supported variant and keeps its name. -/
theorem C8_save_then_load_roundtrip {R : Type} (store : String → Option R)
    (E : Experiment) (db : DBSettings) (elapsed : Nat)
    (enc : Experiment → R) (dec : R → Experiment)
    (hround : dec (enc E) = E) (hinst : E.isInstance = true)
    (hsimple : E.is_simple_experiment = false) :
    (load_experiment (load_experiment_sqa (save_experiment_sqa store E enc)
        E.name dec) E.name db elapsed).1 = .ok E ∧
    ∀ L, (load_experiment (load_experiment_sqa (save_experiment_sqa store E enc)
        E.name dec) E.name db elapsed).1 = .ok L →
      L.name = E.name ∧ L.isInstance = true ∧ L.is_simple_experiment = false := by
  have hstore : load_experiment_sqa (save_experiment_sqa store E enc) E.name dec
      = .ok E := by
    simp [load_experiment_sqa, save_experiment_sqa, hround]
  have hmain : (load_experiment (load_experiment_sqa (save_experiment_sqa store E enc)
      E.name dec) E.name db elapsed).1 = .ok E := by
    rw [hstore]
    simp [load_experiment, hinst, hsimple]
  refine ⟨hmain, ?_⟩
  intro L hL
  rw [hmain] at hL
  obtain rfl : E = L := by simpa using hL
  exact ⟨rfl, hinst, hsimple⟩

/-- C8 witness: the concrete experiment `exp1` saved into an empty store with
the identity encoder/decoder loads back as itself. -/
theorem C8_witness :
    (load_experiment (load_experiment_sqa
        (save_experiment_sqa (fun _ => none) ⟨"exp1", true, false⟩ id) "exp1" id)
        "exp1" ⟨1, "sqlite", 2, 3⟩ 0).1 = .ok ⟨"exp1", true, false⟩ :=
  (C8_save_then_load_roundtrip (fun _ => none) ⟨"exp1", true, false⟩
      ⟨1, "sqlite", 2, 3⟩ 0 id id rfl rfl rfl).1

/-- C2 counterexample: `save_generation_strategy` performs its store operation
without ever invoking the Connection Initializer. At a concrete input its
whole trace is the store call followed by the log line; in particular its
first event is not `initEngineAndSessionFactory` with the configuration's
creator and url. -/
theorem C2_counterexample :
    (save_generation_strategy (.ok ()) ⟨"gs", []⟩ ⟨1, "sqlite", 2, 3⟩ 0).2
      = [Event.saveGenerationStrategyCall "gs" 2,
         Event.logDebug (.savedGenerationStrategy "gs" 0)] ∧
    (save_generation_strategy (.ok ()) ⟨"gs", []⟩ ⟨1, "sqlite", 2, 3⟩ 0).2.head?
      ≠ some (Event.initEngineAndSessionFactory 1 "sqlite") := by
  exact ⟨rfl, by decide⟩

/-- C2 (amended): every public operation except `save_generation_strategy`
first invokes the Connection Initializer with the configuration's creator and
url and only then performs its store operation; `save_generation_strategy`
performs its store operation without any Connection Initializer invocation. -/
theorem C2_amended_init_first_except_save_generation_strategy :
    (∀ idRes name db, (get_experiment_id idRes name db).2.head?
        = some (Event.initEngineAndSessionFactory db.creator db.url) ∧
      Event.getExperimentIdCall name db.decoder
        ∈ (get_experiment_id idRes name db).2.tail) ∧
    (∀ idRes name db, (get_generation_strategy_id idRes name db).2.head?
        = some (Event.initEngineAndSessionFactory db.creator db.url) ∧
      Event.getGenerationStrategyIdCall name db.decoder
        ∈ (get_generation_strategy_id idRes name db).2.tail) ∧
    (∀ loadRes name db elapsed, (load_experiment loadRes name db elapsed).2.head?
        = some (Event.initEngineAndSessionFactory db.creator db.url) ∧
      Event.loadExperimentCall name db.decoder
        ∈ (load_experiment loadRes name db elapsed).2.tail) ∧
    (∀ storeRes experiment db elapsed,
      (save_experiment storeRes experiment db elapsed).2.head?
        = some (Event.initEngineAndSessionFactory db.creator db.url) ∧
      Event.saveExperimentCall experiment.name db.encoder
        ∈ (save_experiment storeRes experiment db elapsed).2.tail) ∧
    (∀ loadRes gsRes name db elapsed,
      (load_experiment_and_generation_strategy loadRes gsRes name db
          elapsed).2.head?
        = some (Event.initEngineAndSessionFactory db.creator db.url) ∧
      Event.loadExperimentCall name db.decoder
        ∈ (load_experiment_and_generation_strategy loadRes gsRes name db
            elapsed).2.tail) ∧
    (∀ storeRes experiment trials db elapsed,
      (save_new_trials storeRes experiment trials db elapsed).2.head?
        = some (Event.initEngineAndSessionFactory db.creator db.url) ∧
      Event.saveNewTrialsCall experiment.name trials db.encoder
        ∈ (save_new_trials storeRes experiment trials db elapsed).2.tail) ∧
    (∀ storeRes experiment trial db elapsed,
      (save_new_trial storeRes experiment trial db elapsed).2.head?
        = some (Event.initEngineAndSessionFactory db.creator db.url) ∧
      Event.saveNewTrialsCall experiment.name [trial] db.encoder
        ∈ (save_new_trial storeRes experiment trial db elapsed).2.tail) ∧
    (∀ storeRes experiment trials db elapsed,
      (save_updated_trials storeRes experiment trials db elapsed).2.head?
        = some (Event.initEngineAndSessionFactory db.creator db.url) ∧
      Event.updateTrialsCall experiment.name trials db.encoder
        ∈ (save_updated_trials storeRes experiment trials db elapsed).2.tail) ∧
    (∀ storeRes experiment trial db elapsed,
      (save_updated_trial storeRes experiment trial db elapsed).2.head?
        = some (Event.initEngineAndSessionFactory db.creator db.url) ∧
      Event.updateTrialsCall experiment.name [trial] db.encoder
        ∈ (save_updated_trial storeRes experiment trial db elapsed).2.tail) ∧
    (∀ generation_strategy k generator_runs db elapsed,
      (update_generation_strategy generation_strategy k generator_runs db
          elapsed).2.head?
        = some (Event.initEngineAndSessionFactory db.creator db.url) ∧
      Event.updateGenerationStrategyCall generation_strategy.name generator_runs
          db.encoder
        ∈ (update_generation_strategy generation_strategy k generator_runs db
            elapsed).2.tail) ∧
    (∀ storeRes generation_strategy db elapsed c u,
      Event.initEngineAndSessionFactory c u
        ∉ (save_generation_strategy storeRes generation_strategy db elapsed).2) := by
  refine ⟨?_, ?_, ?_, ?_, ?_, ?_, ?_, ?_, ?_, ?_, ?_⟩
  · intro idRes name db
    exact ⟨rfl, by simp [get_experiment_id]⟩
  · intro idRes name db
    exact ⟨rfl, by simp [get_generation_strategy_id]⟩
  · intro loadRes name db elapsed
    obtain ⟨rest, hrest⟩ := load_experiment_trace_shape loadRes name db elapsed
    rw [hrest]
    exact ⟨rfl, by simp⟩
  · intro storeRes experiment db elapsed
    cases storeRes <;> exact ⟨rfl, by simp [save_experiment]⟩
  · intro loadRes gsRes name db elapsed
    obtain ⟨rest, hrest⟩ := load_experiment_trace_shape loadRes name db elapsed
    rcases hle : load_experiment loadRes name db elapsed with ⟨r, tr⟩
    rw [hle] at hrest
    simp only at hrest
    cases r with
    | error e =>
      rw [load_experiment_and_generation_strategy, hle]
      rw [hrest]
      exact ⟨rfl, by simp⟩
    | ok exp =>
      rw [load_experiment_and_generation_strategy, hle]
      cases gsRes with
      | ok gs =>
        rw [hrest]
        exact ⟨rfl, by simp⟩
      | error e =>
        by_cases hc : e.cls = PyClass.valueError <;>
          simp only [hc, if_true, if_false] <;> rw [hrest] <;>
          exact ⟨rfl, by simp⟩
  · intro storeRes experiment trials db elapsed
    cases storeRes <;> exact ⟨rfl, by simp [save_new_trials]⟩
  · intro storeRes experiment trial db elapsed
    cases storeRes <;>
      exact ⟨rfl, by simp [save_new_trial, save_new_trials]⟩
  · intro storeRes experiment trials db elapsed
    cases storeRes <;> exact ⟨rfl, by simp [save_updated_trials]⟩
  · intro storeRes experiment trial db elapsed
    cases storeRes <;>
      exact ⟨rfl, by simp [save_updated_trial, save_updated_trials]⟩
  · intro generation_strategy k generator_runs db elapsed
    exact ⟨rfl, by simp [update_generation_strategy]⟩
  · intro storeRes generation_strategy db elapsed c u
    cases storeRes <;> simp [save_generation_strategy]

/-- C7: for every public operation, the instrumentation (wall-clock timing and
debug logging) never affects the result or the store-side effects: the
operation with the wrapper removed returns the same result, and erasing the
log events from the operation's trace yields exactly the wrapper-free
operation's trace — for every value of the measured elapsed time. -/
theorem C7_instrumentation_is_observationally_inert :
    (∀ idRes name db, (get_experiment_id idRes name db).1
        = (get_experiment_idNoLog idRes name db).1 ∧
      eraseLogs (get_experiment_id idRes name db).2
        = (get_experiment_idNoLog idRes name db).2) ∧
    (∀ idRes name db, (get_generation_strategy_id idRes name db).1
        = (get_generation_strategy_idNoLog idRes name db).1 ∧
      eraseLogs (get_generation_strategy_id idRes name db).2
        = (get_generation_strategy_idNoLog idRes name db).2) ∧
    (∀ loadRes name db elapsed, (load_experiment loadRes name db elapsed).1
        = (load_experimentNoLog loadRes name db).1 ∧
      eraseLogs (load_experiment loadRes name db elapsed).2
        = (load_experimentNoLog loadRes name db).2) ∧
    (∀ storeRes experiment db elapsed,
      (save_experiment storeRes experiment db elapsed).1
        = (save_experimentNoLog storeRes experiment db).1 ∧
      eraseLogs (save_experiment storeRes experiment db elapsed).2
        = (save_experimentNoLog storeRes experiment db).2) ∧
    (∀ loadRes gsRes name db elapsed,
      (load_experiment_and_generation_strategy loadRes gsRes name db elapsed).1
        = (load_experiment_and_generation_strategyNoLog loadRes gsRes name db).1 ∧
      eraseLogs
          (load_experiment_and_generation_strategy loadRes gsRes name db
            elapsed).2
        = (load_experiment_and_generation_strategyNoLog loadRes gsRes name
            db).2) ∧
    (∀ storeRes generation_strategy db elapsed,
      (save_generation_strategy storeRes generation_strategy db elapsed).1
        = (save_generation_strategyNoLog storeRes generation_strategy db).1 ∧
      eraseLogs (save_generation_strategy storeRes generation_strategy db
          elapsed).2
        = (save_generation_strategyNoLog storeRes generation_strategy db).2) ∧
    (∀ storeRes experiment trials db elapsed,
      (save_new_trials storeRes experiment trials db elapsed).1
        = (save_new_trialsNoLog storeRes experiment trials db).1 ∧
      eraseLogs (save_new_trials storeRes experiment trials db elapsed).2
        = (save_new_trialsNoLog storeRes experiment trials db).2) ∧
    (∀ storeRes experiment trial db elapsed,
      (save_new_trial storeRes experiment trial db elapsed).1
        = (save_new_trialNoLog storeRes experiment trial db).1 ∧
      eraseLogs (save_new_trial storeRes experiment trial db elapsed).2
        = (save_new_trialNoLog storeRes experiment trial db).2) ∧
    (∀ storeRes experiment trials db elapsed,
      (save_updated_trials storeRes experiment trials db elapsed).1
        = (save_updated_trialsNoLog storeRes experiment trials db).1 ∧
      eraseLogs (save_updated_trials storeRes experiment trials db elapsed).2
        = (save_updated_trialsNoLog storeRes experiment trials db).2) ∧
    (∀ storeRes experiment trial db elapsed,
      (save_updated_trial storeRes experiment trial db elapsed).1
        = (save_updated_trialNoLog storeRes experiment trial db).1 ∧
      eraseLogs (save_updated_trial storeRes experiment trial db elapsed).2
        = (save_updated_trialNoLog storeRes experiment trial db).2) ∧
    (∀ generation_strategy k generator_runs db elapsed,
      (update_generation_strategy generation_strategy k generator_runs db
          elapsed).1
        = (update_generation_strategyNoLog generation_strategy k generator_runs
            db).1 ∧
      eraseLogs (update_generation_strategy generation_strategy k generator_runs
          db elapsed).2
        = (update_generation_strategyNoLog generation_strategy k generator_runs
            db).2) := by
  refine ⟨?_, ?_, ?_, ?_, ?_, ?_, ?_, ?_, ?_, ?_, ?_⟩
  · intro idRes name db
    exact ⟨rfl, rfl⟩
  · intro idRes name db
    exact ⟨rfl, rfl⟩
  · intro loadRes name db elapsed
    cases loadRes with
    | error e => exact ⟨rfl, rfl⟩
    | ok exp =>
      obtain ⟨nm, inst, simple⟩ := exp
      cases inst <;> cases simple <;> exact ⟨rfl, rfl⟩
  · intro storeRes experiment db elapsed
    cases storeRes <;> exact ⟨rfl, rfl⟩
  · intro loadRes gsRes name db elapsed
    cases loadRes with
    | error e => exact ⟨rfl, rfl⟩
    | ok exp =>
      obtain ⟨nm, inst, simple⟩ := exp
      cases inst <;> cases simple <;>
        first
          | exact ⟨rfl, rfl⟩
          | (cases gsRes with
              | ok gs => exact ⟨rfl, rfl⟩
              | error e =>
                obtain ⟨cls, msg⟩ := e
                cases cls <;> exact ⟨rfl, rfl⟩)
  · intro storeRes generation_strategy db elapsed
    cases storeRes <;> exact ⟨rfl, rfl⟩
  · intro storeRes experiment trials db elapsed
    cases storeRes <;> exact ⟨rfl, rfl⟩
  · intro storeRes experiment trial db elapsed
    cases storeRes <;> exact ⟨rfl, rfl⟩
  · intro storeRes experiment trials db elapsed
    cases storeRes <;> exact ⟨rfl, rfl⟩
  · intro storeRes experiment trial db elapsed
    cases storeRes <;> exact ⟨rfl, rfl⟩
  · intro generation_strategy k generator_runs db elapsed
    refine ⟨rfl, ?_⟩
    simp only [update_generation_strategy, update_generation_strategyNoLog,
      update_generation_strategy_sqa, eraseLogs]
    simp [Event.isLog, List.filter_append, List.filter_map, Function.comp]
    congr 1
    rw [List.filter_eq_self]
    intro a _
    rfl

end AxStorage
